import Mathlib

/-!
# Baby Docker (`container.c`): a shallow embedding and its properties

The program is a sequence of system and library calls whose results it
inspects.  Each C function is embedded as a function that takes the results
the environment gives to its calls (one field per call site; no call site is
inside a loop, so each is executed at most once per activation) and yields
the ordered list of calls it issued together with the way it ended: a normal
return, a call of `exit`, or a successful `execvp`.

C strings are embedded as `String`, one character standing for one byte;
every string the program itself contributes is ASCII.
-/

namespace Container

/-! ## Constants of the C library and of Linux -/

/-- PATH_MAX of `<limits.h>` on Linux. -/
def PATH_MAX : Nat := 4096

/-- STACK_SIZE, `(1024 * 1024)`. -/
def STACK_SIZE : Nat := 1024 * 1024

def EXIT_SUCCESS : Int := 0
def EXIT_FAILURE : Int := 1

def MS_BIND : Nat := 4096
def MS_REC : Nat := 16384
def MS_PRIVATE : Nat := 262144
def MNT_DETACH : Nat := 2

def CLONE_NEWNS : Nat := 0x00020000
def CLONE_NEWUTS : Nat := 0x04000000
def CLONE_NEWIPC : Nat := 0x08000000
def CLONE_NEWUSER : Nat := 0x10000000
def CLONE_NEWPID : Nat := 0x20000000
def CLONE_NEWNET : Nat := 0x40000000
def SIGCHLD : Nat := 17
/-- CSIGNAL, the mask of the termination signal inside the clone flag word. -/
def CSIGNAL : Nat := 0xff

def S_IFMT : Nat := 0o170000
def S_IFDIR : Nat := 0o040000

/-- S_ISDIR of `<sys/stat.h>`: `(((mode) & S_IFMT) == S_IFDIR)`. -/
def S_ISDIR (mode : Nat) : Bool := mode &&& S_IFMT == S_IFDIR

/-! ## Wait-status macros of `<sys/wait.h>` (glibc) -/

/-- WTERMSIG: `((status) & 0x7f)`. -/
def WTERMSIG (status : Nat) : Nat := status &&& 0x7f

/-- WEXITSTATUS: `(((status) & 0xff00) >> 8)`. -/
def WEXITSTATUS (status : Nat) : Nat := (status &&& 0xff00) >>> 8

/-- WIFEXITED: `(WTERMSIG(status) == 0)`. -/
def WIFEXITED (status : Nat) : Bool := WTERMSIG status == 0

/-- Conversion of a small non-negative value to `signed char`. -/
def toSignedChar (x : Nat) : Int :=
  if x % 256 < 128 then (x % 256 : Nat) else (x % 256 : Nat) - 256

/-- WIFSIGNALED: `(((signed char) (((status) & 0x7f) + 1) >> 1) > 0)`. -/
def WIFSIGNALED (status : Nat) : Bool :=
  decide (toSignedChar ((status &&& 0x7f) + 1) >>> 1 > 0)

/-! ## Formatting -/

/-- The `%d` conversion of printf. -/
def fmt_d (n : Int) : String := toString n

/-- What `snprintf(buf, size, ...)` leaves in `buf`, given the complete
formatted text: at most `size - 1` bytes of it. -/
def snprintf (size : Nat) (text : String) : String := ⟨text.data.take (size - 1)⟩

/-! ## Calls and runs -/

/-- Container configuration structure. -/
structure container_config_t where
  rootfs_path : String
  argv : List String
deriving DecidableEq

/-- The calls the program makes to the C library and to the kernel, with the
arguments that matter.  A NULL string argument is `none`. -/
inductive Call where
  | mount (source : Option String) (target : String) (fstype : Option String) (flags : Nat)
  | mkdir (path : String) (mode : Nat)
  | rmdir (path : String)
  | chdir (path : String)
  | pivot_root (new_root put_old : String)
  | umount2 (target : String) (flags : Nat)
  | sethostname (name : String) (len : Nat)
  | execvp (file : Option String) (argv : List String)
  | fopen (path mode : String)
  | fprintf (path text : String)
  | fclose (path : String)
  | perror (msg : String)
  | printf (text : String)
  | eprintf (text : String)
  | geteuid
  | stat (path : String)
  | malloc (size : Nat)
  | free
  | clone (flags : Nat) (arg : container_config_t)
  | waitpid (pid : Int) (options : Nat)
deriving DecidableEq

/-- How an activation ends. -/
inductive Ctl (α : Type) where
  /-- The function returned this value. -/
  | ret (a : α)
  /-- The process ended through `exit(code)`. -/
  | exited (code : Int)
  /-- The process image was replaced by a successful `execvp`. -/
  | replaced
deriving DecidableEq

/-- A run: the calls issued, oldest first, and how the run ended. -/
structure Proc (α : Type) where
  trace : List Call
  ctl : Ctl α

namespace Proc

def pure (a : α) : Proc α := ⟨[], .ret a⟩

def bind (m : Proc α) (f : α → Proc β) : Proc β :=
  match m.ctl with
  | .ret a => ⟨m.trace ++ (f a).trace, (f a).ctl⟩
  | .exited c => ⟨m.trace, .exited c⟩
  | .replaced => ⟨m.trace, .replaced⟩

end Proc

instance : Monad Proc where
  pure := Proc.pure
  bind := Proc.bind

/-- One call whose result `r` is supplied by the environment. -/
def sys (c : Call) (r : ρ) : Proc ρ := ⟨[c], .ret r⟩

/-- A call whose result the program does not look at. -/
def emit (c : Call) : Proc Unit := ⟨[c], .ret ()⟩

/-- Error handling utility: `perror(msg); exit(EXIT_FAILURE);`. -/
def die (msg : String) : Proc α := ⟨[.perror msg], .exited EXIT_FAILURE⟩

/-! ## `setup_mounts` -/

/-- Results of the calls of `setup_mounts`, in program order. -/
structure MountEnv where
  mount_private : Int
  mkdir_old_root : Int
  mount_bind : Int
  chdir_rootfs : Int
  pivot_root : Int
  chdir_slash : Int
  umount2 : Int
  rmdir_old_root : Int
  mount_proc : Int

/-- Setup mount namespace. -/
def setup_mounts (e : MountEnv) (rootfs : String) : Proc Int := do
  if (← sys (.mount none "/" none (MS_REC ||| MS_PRIVATE)) e.mount_private) = -1 then
    die "Failed to make / private"
  let old_root_path := snprintf PATH_MAX (rootfs ++ "/.old_root")
  let _ ← sys (.mkdir old_root_path 0o755) e.mkdir_old_root
  if (← sys (.mount (some rootfs) rootfs none (MS_BIND ||| MS_REC)) e.mount_bind) = -1 then
    die "Failed to bind mount new root"
  if (← sys (.chdir rootfs) e.chdir_rootfs) = -1 then
    die "Failed to chdir to new root"
  if (← sys (.pivot_root "." ".old_root") e.pivot_root) = -1 then
    die "Failed to pivot_root"
  if (← sys (.chdir "/") e.chdir_slash) = -1 then
    die "Failed to chdir to /"
  if (← sys (.umount2 "/.old_root" MNT_DETACH) e.umount2) = -1 then
    die "Failed to umount old root"
  if (← sys (.rmdir "/.old_root") e.rmdir_old_root) = -1 then
    emit (.perror "Warning: Failed to remove .old_root")
  if (← sys (.mount (some "proc") "/proc" (some "proc") 0) e.mount_proc) = -1 then
    emit (.perror "Warning: Failed to mount /proc")
  return 0

/-! ## Resource-control group -/

/-- Results of the calls of `setup_cgroups`; for `fopen`, whether the stream
returned is non-NULL. -/
structure CgroupEnv where
  mkdir : Int
  fopen_limit : Bool
  fopen_tasks : Bool

/-- Setup cgroups for resource limiting. -/
def setup_cgroups (e : CgroupEnv) (pid : Int) : Proc Int := do
  let pid_str := snprintf 32 (fmt_d pid)
  let cgroup_path := snprintf PATH_MAX ("/sys/fs/cgroup/memory/baby-docker-" ++ fmt_d pid)
  if (← sys (.mkdir cgroup_path 0o755) e.mkdir) = 0 then
    let limit_path := snprintf PATH_MAX (cgroup_path ++ "/memory.limit_in_bytes")
    if (← sys (.fopen limit_path "w") e.fopen_limit) then
      emit (.fprintf limit_path "104857600")
      emit (.fclose limit_path)
    let tasks_path := snprintf PATH_MAX (cgroup_path ++ "/tasks")
    if (← sys (.fopen tasks_path "w") e.fopen_tasks) then
      emit (.fprintf tasks_path pid_str)
      emit (.fclose tasks_path)
  return 0

/-- Cleanup cgroups; `r` is the result of `rmdir`, which is not looked at. -/
def cleanup_cgroups (r : Int) (pid : Int) : Proc Unit := do
  let cgroup_path := snprintf PATH_MAX ("/sys/fs/cgroup/memory/baby-docker-" ++ fmt_d pid)
  let _ ← sys (.rmdir cgroup_path) r

/-! ## The child -/

/-- Setup hostname for UTS namespace; `r` is the result of `sethostname`. -/
def setup_hostname (r : Int) : Proc Int := do
  if (← sys (.sethostname "container" 9) r) = -1 then
    emit (.perror "Warning: Failed to set hostname")
  return 0

/-- Results of the calls of `child_func`.  For `execvp`, `none` stands for
success (the call does not return) and `some r` for a return with value `r`. -/
structure ChildEnv where
  sethostname : Int
  mounts : MountEnv
  execvp : Option Int

/-- The call of `execvp`: on success the run ends there. -/
def execvp (file : Option String) (argv : List String) (r : Option Int) : Proc Int :=
  match r with
  | none => ⟨[.execvp file argv], .replaced⟩
  | some v => ⟨[.execvp file argv], .ret v⟩

/-- Child process function that runs in the new namespaces. -/
def child_func (e : ChildEnv) (config : container_config_t) : Proc Int := do
  let _ ← setup_hostname e.sethostname
  let _ ← setup_mounts e.mounts config.rootfs_path
  if (← execvp config.argv.head? config.argv e.execvp) = -1 then
    die "Failed to exec"
  return 0

/-! ## The parent -/

/-- Results of the calls of `main`.  `malloc` tells whether the pointer
returned is non-NULL; `status` is what `waitpid` stores in `status` when it
succeeds. -/
structure MainEnv where
  geteuid : Nat
  stat : Int
  st_mode : Nat
  malloc : Bool
  clone : Int
  cgroup : CgroupEnv
  waitpid : Int
  status : Nat
  rmdir_cgroup : Int

/-- A `%s` argument taken from `argv[i]`; `argv[argc]` is NULL, which glibc
prints as `(null)`. -/
def argv_s (argv : List String) (i : Nat) : String := argv.getD i "(null)"

/-- The flag word passed to `clone`. -/
def clone_flags : Nat :=
  CLONE_NEWPID ||| CLONE_NEWNS ||| CLONE_NEWNET ||| CLONE_NEWUTS ||| CLONE_NEWIPC ||| SIGCHLD

/-- Main function; `argc` is the length of `argv`. -/
def main (e : MainEnv) (argv : List String) : Proc Int := do
  let argc := argv.length
  if argc < 3 then
    emit (.eprintf ("Usage: " ++ argv_s argv 0 ++ " <rootfs-path> <command> [args...]\n"))
    emit (.eprintf "\nExample:\n")
    emit (.eprintf ("  " ++ argv_s argv 0 ++ " ./rootfs /bin/sh\n"))
    emit (.eprintf "\nNote: This program requires root privileges\n")
    return EXIT_FAILURE
  if (← sys .geteuid e.geteuid) ≠ 0 then
    emit (.eprintf "Error: This program must be run as root\n")
    return EXIT_FAILURE
  let config : container_config_t := ⟨argv_s argv 1, argv.drop 2⟩
  if (← sys (.stat config.rootfs_path) e.stat) = -1 then
    die "Failed to stat rootfs path"
  if !S_ISDIR e.st_mode then
    emit (.eprintf ("Error: " ++ config.rootfs_path ++ " is not a directory\n"))
    return EXIT_FAILURE
  emit (.printf "Starting container...\n")
  emit (.printf ("Rootfs: " ++ config.rootfs_path ++ "\n"))
  emit (.printf ("Command: " ++ argv_s config.argv 0 ++ "\n"))
  if !(← sys (.malloc STACK_SIZE) e.malloc) then
    die "Failed to allocate stack"
  let flags := clone_flags
  let pid ← sys (.clone flags config) e.clone
  if pid = -1 then
    die "Failed to clone"
  emit (.printf ("Container started with PID: " ++ fmt_d pid ++ "\n"))
  let _ ← setup_cgroups e.cgroup pid
  if (← sys (.waitpid pid 0) e.waitpid) = -1 then
    die "Failed to wait for child"
  let status := e.status
  cleanup_cgroups e.rmdir_cgroup pid
  emit .free
  if WIFEXITED status then
    emit (.printf ("Container exited with status: " ++ fmt_d (WEXITSTATUS status) ++ "\n"))
    return WEXITSTATUS status
  else if WIFSIGNALED status then
    emit (.printf ("Container killed by signal: " ++ fmt_d (WTERMSIG status) ++ "\n"))
    return EXIT_FAILURE
  return EXIT_SUCCESS

/-! ## Notions used to state the properties -/

/-- The exit status of a process that ran `p` as its `main`: the low eight
bits of the value returned from `main` or passed to `exit`; none when the
image was replaced. -/
def exit_status (p : Proc Int) : Option Int :=
  match p.ctl with
  | .ret v => some (v % 256)
  | .exited c => some (c % 256)
  | .replaced => none

/-- Whether a call is a `clone`. -/
def Call.is_clone : Call → Bool
  | .clone _ _ => true
  | _ => false

/-- Whether a call is a `mkdir`. -/
def Call.is_mkdir : Call → Bool
  | .mkdir _ _ => true
  | _ => false

/-- Whether a call is an `rmdir`. -/
def Call.is_rmdir : Call → Bool
  | .rmdir _ => true
  | _ => false

/-- Whether a call is an `fopen`. -/
def Call.is_fopen : Call → Bool
  | .fopen _ _ => true
  | _ => false

/-- The checks of `main` before it starts the container all pass: two
positional arguments at least, effective uid 0, `stat` succeeds, and the mode
is that of a directory. -/
def validation_passes (e : MainEnv) (argv : List String) : Prop :=
  3 ≤ argv.length ∧ e.geteuid = 0 ∧ e.stat ≠ -1 ∧ S_ISDIR e.st_mode = true

instance (e : MainEnv) (argv : List String) : Decidable (validation_passes e argv) := by
  unfold validation_passes
  infer_instance

/-- The environment `e` with other results for the cgroup calls: those of
`setup_cgroups` and that of the `rmdir` of `cleanup_cgroups`. -/
def MainEnv.with_cgroup_results (e : MainEnv) (cg : CgroupEnv) (r : Int) : MainEnv :=
  ⟨e.geteuid, e.stat, e.st_mode, e.malloc, e.clone, cg, e.waitpid, e.status, r⟩

/-- The name of the resource-control group of `pid`, as the format string
spells it, before it is stored in a buffer. -/
def cgroup_name (pid : Int) : String := "/sys/fs/cgroup/memory/baby-docker-" ++ fmt_d pid

/-- The calls of `main` from the uid check up to and including `clone`, on a
run that passes validation and gets its stack. -/
def main_prologue (argv : List String) : List Call :=
  [.geteuid, .stat (argv_s argv 1), .printf "Starting container...\n",
   .printf ("Rootfs: " ++ argv_s argv 1 ++ "\n"),
   .printf ("Command: " ++ argv_s (argv.drop 2) 0 ++ "\n"),
   .malloc STACK_SIZE, .clone clone_flags ⟨argv_s argv 1, argv.drop 2⟩]

/-- What `main` prints and returns once the child is reaped. -/
def main_report (status : Nat) : Proc Int :=
  if WIFEXITED status then
    ⟨[.printf ("Container exited with status: " ++ fmt_d (WEXITSTATUS status) ++ "\n")],
      .ret (WEXITSTATUS status)⟩
  else if WIFSIGNALED status then
    ⟨[.printf ("Container killed by signal: " ++ fmt_d (WTERMSIG status) ++ "\n")],
      .ret EXIT_FAILURE⟩
  else ⟨[], .ret EXIT_SUCCESS⟩

/-- The nine steps of the root switch as the specification lists them, for a
rootfs path `rootfs`. -/
def switch_steps (rootfs : String) : List Call :=
  [.mount none "/" none (MS_REC ||| MS_PRIVATE),
   .mkdir (rootfs ++ "/.old_root") 0o755,
   .mount (some rootfs) rootfs none (MS_BIND ||| MS_REC),
   .chdir rootfs,
   .pivot_root "." ".old_root",
   .chdir "/",
   .umount2 "/.old_root" MNT_DETACH,
   .rmdir "/.old_root",
   .mount (some "proc") "/proc" (some "proc") 0]

/-- A valid directory path of 4086 bytes: `/srv` followed by 4082 slashes. -/
def long_rootfs : String := String.mk ('/' :: 's' :: 'r' :: 'v' :: List.replicate 4082 '/')

/-- The number a list of decimal digits stands for. -/
def decimal_value (ds : List Char) : Nat :=
  ds.foldl (fun acc c => 10 * acc + (c.toNat - 48)) 0

/-! ## Auxiliary facts -/

set_option maxRecDepth 100000 in
/-- A wait status `N * 256` with `N ≤ 255` is a normal exit with code `N`. -/
theorem wait_exited (N : Nat) (h : N ≤ 255) :
    WIFEXITED (N * 256) = true ∧ WEXITSTATUS (N * 256) = N := by
  revert N
  decide

set_option maxRecDepth 100000 in
/-- A wait status `s` or `s + 0x80` with `1 ≤ s ≤ 126` is a termination by signal. -/
theorem wait_signaled (s : Nat) (h1 : 1 ≤ s) (h2 : s ≤ 126) :
    WIFEXITED s = false ∧ WIFSIGNALED s = true ∧
    WIFEXITED (s + 0x80) = false ∧ WIFSIGNALED (s + 0x80) = true := by
  revert s
  decide

/-- The function `setup_cgroups` returns 0 whatever its calls give. -/
theorem setup_cgroups_ctl (e : CgroupEnv) (pid : Int) : (setup_cgroups e pid).ctl = .ret 0 := by
  simp only [setup_cgroups, bind, Proc.bind, sys, emit, pure, Proc.pure]
  split_ifs <;> rfl

/-- No call of `setup_cgroups` is a `clone`. -/
theorem setup_cgroups_no_clone (e : CgroupEnv) (pid : Int) :
    (setup_cgroups e pid).trace.filter Call.is_clone = [] := by
  simp only [setup_cgroups, bind, Proc.bind, sys, emit, pure, Proc.pure]
  split_ifs <;> simp [Call.is_clone]

/-- The function `cleanup_cgroups` returns whatever `rmdir` gives. -/
theorem cleanup_cgroups_ctl (r pid : Int) : (cleanup_cgroups r pid).ctl = .ret () := by
  simp [cleanup_cgroups, bind, Proc.bind, sys, pure, Proc.pure]

/-- The function `cleanup_cgroups` issues one `rmdir`, of the group directory. -/
theorem cleanup_cgroups_trace (r pid : Int) :
    (cleanup_cgroups r pid).trace = [.rmdir (snprintf PATH_MAX (cgroup_name pid))] := by
  simp [cleanup_cgroups, bind, Proc.bind, sys, pure, Proc.pure, cgroup_name]

/-- The run of `main` when `clone` fails. -/
theorem main_clone_fails (e : MainEnv) (argv : List String) (hv : validation_passes e argv)
    (hmalloc : e.malloc = true) (hclone : e.clone = -1) :
    main e argv = ⟨main_prologue argv ++ [.perror "Failed to clone"], .exited 1⟩ := by
  obtain ⟨hargc, heuid, hstat, hdir⟩ := hv
  have hlt : ¬ argv.length < 3 := by omega
  simp [main, bind, Proc.bind, sys, die, emit, pure, Proc.pure, hlt, heuid, hstat, hdir, hmalloc,
    hclone, main_prologue, EXIT_FAILURE]

/-- The run of `main` when `clone` succeeds and `waitpid` fails. -/
theorem main_wait_fails (e : MainEnv) (argv : List String) (hv : validation_passes e argv)
    (hmalloc : e.malloc = true) (hclone : e.clone ≠ -1) (hwait : e.waitpid = -1) :
    main e argv = ⟨main_prologue argv
      ++ [.printf ("Container started with PID: " ++ fmt_d e.clone ++ "\n")]
      ++ (setup_cgroups e.cgroup e.clone).trace
      ++ [.waitpid e.clone 0, .perror "Failed to wait for child"], .exited 1⟩ := by
  obtain ⟨hargc, heuid, hstat, hdir⟩ := hv
  have hlt : ¬ argv.length < 3 := by omega
  simp [main, bind, Proc.bind, sys, die, emit, pure, Proc.pure, hlt, heuid, hstat, hdir, hmalloc,
    hclone, hwait, main_prologue, EXIT_FAILURE, setup_cgroups_ctl]

/-- The run of `main` when `clone` and `waitpid` succeed. -/
theorem main_waited (e : MainEnv) (argv : List String) (hv : validation_passes e argv)
    (hmalloc : e.malloc = true) (hclone : e.clone ≠ -1) (hwait : e.waitpid ≠ -1) :
    main e argv = ⟨main_prologue argv
      ++ [.printf ("Container started with PID: " ++ fmt_d e.clone ++ "\n")]
      ++ (setup_cgroups e.cgroup e.clone).trace
      ++ [.waitpid e.clone 0, .rmdir (snprintf PATH_MAX (cgroup_name e.clone)), .free]
      ++ (main_report e.status).trace, (main_report e.status).ctl⟩ := by
  obtain ⟨hargc, heuid, hstat, hdir⟩ := hv
  have hlt : ¬ argv.length < 3 := by omega
  simp only [main_report]
  split_ifs with h1 h2 <;>
  simp [main, bind, Proc.bind, sys, die, emit, pure, Proc.pure, hlt, heuid, hstat, hdir, hmalloc,
    hclone, hwait, main_prologue, EXIT_FAILURE, setup_cgroups_ctl, cleanup_cgroups_ctl,
    cleanup_cgroups_trace, *]

/-- The final report contains no `clone`. -/
theorem main_report_no_clone (status : Nat) :
    (main_report status).trace.filter Call.is_clone = [] := by
  simp only [main_report]
  split_ifs <;> simp [Call.is_clone]

/-- The way `main` ends does not depend on the results of the cgroup calls. -/
theorem main_ctl_cgroup_irrelevant (e : MainEnv) (argv : List String) (cg : CgroupEnv) (r : Int) :
    (main (e.with_cgroup_results cg r) argv).ctl = (main e argv).ctl := by
  by_cases h1 : argv.length < 3
  · simp [main, bind, Proc.bind, sys, die, emit, pure, Proc.pure, h1]
  by_cases h2 : e.geteuid = 0
  swap
  · simp [main, bind, Proc.bind, sys, die, emit, pure, Proc.pure, h1, h2,
      MainEnv.with_cgroup_results]
  by_cases h3 : e.stat = -1
  · simp [main, bind, Proc.bind, sys, die, emit, pure, Proc.pure, h1, h2, h3,
      MainEnv.with_cgroup_results]
  by_cases h4 : S_ISDIR e.st_mode = true
  swap
  · simp [main, bind, Proc.bind, sys, die, emit, pure, Proc.pure, h1, h2, h3, h4,
      MainEnv.with_cgroup_results]
  by_cases h5 : e.malloc = true
  swap
  · simp [main, bind, Proc.bind, sys, die, emit, pure, Proc.pure, h1, h2, h3, h4, h5,
      MainEnv.with_cgroup_results]
  have hv : validation_passes e argv := ⟨by omega, h2, h3, h4⟩
  have hv2 : validation_passes (e.with_cgroup_results cg r) argv := hv
  by_cases hclone : e.clone = -1
  · rw [main_clone_fails _ argv hv2 h5 hclone, main_clone_fails e argv hv h5 hclone]
  by_cases hwait : e.waitpid = -1
  · rw [main_wait_fails _ argv hv2 h5 hclone hwait, main_wait_fails e argv hv h5 hclone hwait]
  · rw [main_waited _ argv hv2 h5 hclone hwait, main_waited e argv hv h5 hclone hwait]
    rfl

/-- A text shorter than the buffer is stored whole. -/
theorem snprintf_fits (size : Nat) (text : String) (h : text.length < size) :
    snprintf size text = text := by
  unfold snprintf
  have hl : text.data.length ≤ size - 1 := by
    have : text.data.length = text.length := rfl
    omega
  rw [List.take_of_length_le hl]

/-- A leading part that fits the buffer is stored whole; the rest is cut. -/
theorem snprintf_append (size : Nat) (a b : String) (h : a.length ≤ size - 1) :
    snprintf size (a ++ b) = a ++ snprintf (size - a.length) b := by
  unfold snprintf
  apply String.ext
  have hl : a.data.length = a.length := rfl
  simp only [String.data_append, List.take_append_eq_append_take, hl]
  congr 1
  · apply List.take_of_length_le
    omega
  · congr 1
    omega

/-- Appending to the same string is injective. -/
theorem string_append_left_cancel (a b c : String) (h : a ++ b = a ++ c) : b = c := by
  apply String.ext
  have := congrArg String.data h
  simpa using this

/-- The run of `setup_mounts` when none of its six checked fatal steps fails. -/
theorem setup_mounts_survives (e : MountEnv) (rootfs : String)
    (h1 : e.mount_private ≠ -1) (h3 : e.mount_bind ≠ -1) (h4 : e.chdir_rootfs ≠ -1)
    (h5 : e.pivot_root ≠ -1) (h6 : e.chdir_slash ≠ -1) (h7 : e.umount2 ≠ -1) :
    setup_mounts e rootfs =
      ⟨[.mount none "/" none (MS_REC ||| MS_PRIVATE),
        .mkdir (snprintf PATH_MAX (rootfs ++ "/.old_root")) 0o755,
        .mount (some rootfs) rootfs none (MS_BIND ||| MS_REC),
        .chdir rootfs,
        .pivot_root "." ".old_root",
        .chdir "/",
        .umount2 "/.old_root" MNT_DETACH,
        .rmdir "/.old_root"]
        ++ (if e.rmdir_old_root = -1 then [.perror "Warning: Failed to remove .old_root"] else [])
        ++ [.mount (some "proc") "/proc" (some "proc") 0]
        ++ (if e.mount_proc = -1 then [.perror "Warning: Failed to mount /proc"] else []),
       .ret 0⟩ := by
  by_cases h8 : e.rmdir_old_root = -1 <;> by_cases h9 : e.mount_proc = -1 <;>
  simp [setup_mounts, bind, Proc.bind, sys, die, emit, pure, Proc.pure, h1, h3, h4, h5, h6, h7,
    h8, h9]

/-- The function `setup_mounts` either returns 0 or ends the process with status 1. -/
theorem setup_mounts_ctl (e : MountEnv) (rootfs : String) :
    (setup_mounts e rootfs).ctl = .ret 0 ∨ (setup_mounts e rootfs).ctl = .exited 1 := by
  by_cases h1 : e.mount_private = -1
  · right; simp [setup_mounts, bind, Proc.bind, sys, die, EXIT_FAILURE, h1]
  by_cases h3 : e.mount_bind = -1
  · right; simp [setup_mounts, bind, Proc.bind, sys, die, pure, Proc.pure, EXIT_FAILURE, h1, h3]
  by_cases h4 : e.chdir_rootfs = -1
  · right; simp [setup_mounts, bind, Proc.bind, sys, die, pure, Proc.pure, EXIT_FAILURE, h1, h3, h4]
  by_cases h5 : e.pivot_root = -1
  · right
    simp [setup_mounts, bind, Proc.bind, sys, die, pure, Proc.pure, EXIT_FAILURE, h1, h3, h4, h5]
  by_cases h6 : e.chdir_slash = -1
  · right
    simp [setup_mounts, bind, Proc.bind, sys, die, pure, Proc.pure, EXIT_FAILURE, h1, h3, h4, h5,
      h6]
  by_cases h7 : e.umount2 = -1
  · right
    simp [setup_mounts, bind, Proc.bind, sys, die, pure, Proc.pure, EXIT_FAILURE, h1, h3, h4, h5,
      h6, h7]
  · left
    rw [setup_mounts_survives e rootfs h1 h3 h4 h5 h6 h7]

/-- The function `setup_hostname` returns 0 whatever `sethostname` gives. -/
theorem setup_hostname_ctl (r : Int) : (setup_hostname r).ctl = .ret 0 := by
  by_cases h : r = -1 <;>
  simp [setup_hostname, bind, Proc.bind, sys, emit, pure, Proc.pure, h]

/-- The `%d` text of a non-negative number. -/
theorem fmt_d_ofNat (m : Nat) : fmt_d (Int.ofNat m) = Nat.repr m := rfl

/-- The `%d` text of a negative number. -/
theorem fmt_d_negSucc (m : Nat) : fmt_d (Int.negSucc m) = "-" ++ Nat.repr (m + 1) := rfl

/-- The value of a decimal digit character. -/
theorem digitChar_value (d : Nat) (h : d < 10) : (Nat.digitChar d).toNat - 48 = d := by
  interval_cases d <;> rfl

/-- A decimal digit character is not the minus sign. -/
theorem digitChar_ne_minus (d : Nat) (h : d < 10) : Nat.digitChar d ≠ '-' := by
  interval_cases d <;> decide

/-- The accumulator of the digit loop ends up at the end of its result. -/
theorem toDigitsCore_append (f n : Nat) (ds : List Char) :
    Nat.toDigitsCore 10 f n ds = Nat.toDigitsCore 10 f n [] ++ ds := by
  induction f generalizing n ds with
  | zero => simp [Nat.toDigitsCore]
  | succ f ih =>
    simp only [Nat.toDigitsCore]
    split_ifs
    · simp
    · rw [ih (n / 10) (Nat.digitChar (n % 10) :: ds), ih (n / 10) [Nat.digitChar (n % 10)]]
      simp

/-- The digits produced for `n`, read as a decimal number, give `n`. -/
theorem decimal_value_toDigitsCore (f n : Nat) (h : n < f) :
    decimal_value (Nat.toDigitsCore 10 f n []) = n := by
  induction f generalizing n with
  | zero => omega
  | succ f ih =>
    simp only [Nat.toDigitsCore]
    split_ifs with h0
    · simp [decimal_value, digitChar_value (n % 10) (Nat.mod_lt _ (by decide))]
      omega
    · rw [toDigitsCore_append]
      have hlt : n / 10 < f := by omega
      have := ih (n / 10) hlt
      simp only [decimal_value, List.foldl_append, List.foldl_cons, List.foldl_nil] at this ⊢
      rw [this, digitChar_value (n % 10) (Nat.mod_lt _ (by decide))]
      omega

/-- The digits produced for `n` contain no minus sign. -/
theorem toDigitsCore_no_minus (f n : Nat) : '-' ∉ Nat.toDigitsCore 10 f n [] := by
  induction f generalizing n with
  | zero => simp [Nat.toDigitsCore]
  | succ f ih =>
    simp only [Nat.toDigitsCore]
    have hd := digitChar_ne_minus (n % 10) (Nat.mod_lt _ (by decide))
    split_ifs
    · simpa using hd.symm
    · rw [toDigitsCore_append]
      simp only [List.mem_append, List.mem_singleton, not_or]
      exact ⟨ih _, hd.symm⟩

/-- Reading the decimal text of `n` gives `n` back. -/
theorem decimal_value_repr (n : Nat) : decimal_value (Nat.repr n).data = n := by
  simp only [Nat.repr, Nat.toDigits, List.asString]
  exact decimal_value_toDigitsCore (n + 1) n (by omega)

/-- The decimal text of a natural number contains no minus sign. -/
theorem repr_no_minus (n : Nat) : '-' ∉ (Nat.repr n).data := by
  simp only [Nat.repr, Nat.toDigits, List.asString]
  exact toDigitsCore_no_minus (n + 1) n

/-- Distinct integers have distinct `%d` texts. -/
theorem fmt_d_injective (a b : Int) (h : fmt_d a = fmt_d b) : a = b := by
  cases a with
  | ofNat m =>
    cases b with
    | ofNat k =>
      rw [fmt_d_ofNat, fmt_d_ofNat] at h
      have := congrArg (fun s => decimal_value s.data) h
      simp only [decimal_value_repr] at this
      rw [this]
    | negSucc k =>
      rw [fmt_d_ofNat, fmt_d_negSucc] at h
      exfalso
      apply repr_no_minus m
      rw [h]
      simp
  | negSucc m =>
    cases b with
    | ofNat k =>
      rw [fmt_d_ofNat, fmt_d_negSucc] at h
      exfalso
      apply repr_no_minus k
      rw [← h]
      simp
    | negSucc k =>
      rw [fmt_d_negSucc, fmt_d_negSucc] at h
      have h2 := string_append_left_cancel _ _ _ h
      have := congrArg (fun s => decimal_value s.data) h2
      simp only [decimal_value_repr] at this
      have : m = k := by omega
      rw [this]

/-- The `%d` text of a 32-bit integer has at most 11 bytes. -/
theorem fmt_d_length (pid : Int) (h1 : -2 ^ 31 ≤ pid) (h2 : pid < 2 ^ 31) :
    (fmt_d pid).length ≤ 11 := by
  cases pid with
  | ofNat m =>
    rw [fmt_d_ofNat]
    have hm : m < 10 ^ 10 := by
      have : (m : Int) < 2 ^ 31 := h2
      omega
    have := Nat.repr_length m 10 (by decide) hm
    omega
  | negSucc m =>
    rw [fmt_d_negSucc, String.length_append]
    have hm : m + 1 < 10 ^ 10 := by
      have : -2 ^ 31 ≤ Int.negSucc m := h1
      rw [Int.negSucc_eq] at this
      omega
    have := Nat.repr_length (m + 1) 10 (by decide) hm
    have : "-".length = 1 := rfl
    omega

/-- The group name of a 32-bit pid, with a short suffix, fits a PATH_MAX buffer. -/
theorem cgroup_name_fits (pid : Int) (h1 : -2 ^ 31 ≤ pid) (h2 : pid < 2 ^ 31) (sfx : String)
    (hs : sfx.length ≤ 4000) :
    snprintf PATH_MAX (cgroup_name pid ++ sfx) = cgroup_name pid ++ sfx := by
  apply snprintf_fits
  have := fmt_d_length pid h1 h2
  have hp : ("/sys/fs/cgroup/memory/baby-docker-" : String).length = 34 := rfl
  simp only [cgroup_name, String.length_append, hp, PATH_MAX]
  omega

/-- The group name of a 32-bit pid fits a PATH_MAX buffer. -/
theorem cgroup_name_fits_bare (pid : Int) (h1 : -2 ^ 31 ≤ pid) (h2 : pid < 2 ^ 31) :
    snprintf PATH_MAX (cgroup_name pid) = cgroup_name pid := by
  have := cgroup_name_fits pid h1 h2 "" (by decide)
  simpa using this

/-- Distinct pids have distinct group names. -/
theorem cgroup_name_injective (a b : Int) (h : cgroup_name a = cgroup_name b) : a = b :=
  fmt_d_injective a b (string_append_left_cancel _ _ _ h)

/-! ## The properties -/

/-- C1: on every run of `main` in which validation passes, the stack is
allocated, `clone` and `waitpid` succeed and the wait status is `N * 256` with
`N ≤ 255` (a normal exit with code `N`: WIFEXITED holds and WEXITSTATUS is
`N`), `main` returns exactly `N`, which is then the exit status of the
orchestrator. -/
theorem main_returns_child_exit_code (e : MainEnv) (argv : List String) (N : Nat)
    (hv : validation_passes e argv) (hmalloc : e.malloc = true)
    (hclone : e.clone ≠ -1) (hwait : e.waitpid ≠ -1)
    (hN : N ≤ 255) (hstatus : e.status = N * 256) :
    WIFEXITED e.status = true ∧ WEXITSTATUS e.status = N ∧
    (main e argv).ctl = .ret (N : Int) ∧ exit_status (main e argv) = some (N : Int) := by
  obtain ⟨h1, h2⟩ := wait_exited N hN
  rw [main_waited e argv hv hmalloc hclone hwait, hstatus]
  simp only [exit_status, main_report, h1, h2, if_true, true_and]
  simp only [Option.some.injEq]
  omega

theorem main_returns_child_exit_code_witness :
    (main ⟨0, 0, 0o040755, true, 4242, ⟨0, true, true⟩, 4242, 7 * 256, 0⟩
      ["./container", "/srv/rootfs", "/bin/sh"]).ctl = .ret 7 :=
  (main_returns_child_exit_code ⟨0, 0, 0o040755, true, 4242, ⟨0, true, true⟩, 4242, 7 * 256, 0⟩
    ["./container", "/srv/rootfs", "/bin/sh"] 7 (by decide) rfl (by decide) (by decide)
    (by decide) rfl).2.2.1

/-- C2: on every run of `main` in which validation passes, the stack is
allocated, `clone` and `waitpid` succeed and the wait status reports
termination by signal `s` with `1 ≤ s ≤ 126`, with or without the core-dump
bit 0x80, `main` returns EXIT_FAILURE, which is 1; when `s` is not 1 the value
returned is therefore not the signal number. -/
theorem main_signal_gives_generic_failure (e : MainEnv) (argv : List String) (s : Nat)
    (core : Bool) (hv : validation_passes e argv) (hmalloc : e.malloc = true)
    (hclone : e.clone ≠ -1) (hwait : e.waitpid ≠ -1)
    (hs1 : 1 ≤ s) (hs2 : s ≤ 126) (hstatus : e.status = s + (if core then 0x80 else 0)) :
    WIFEXITED e.status = false ∧ WIFSIGNALED e.status = true ∧
    (main e argv).ctl = .ret EXIT_FAILURE ∧ exit_status (main e argv) = some 1 ∧
    (s ≠ 1 → (main e argv).ctl ≠ .ret (s : Int)) := by
  obtain ⟨h1, h2, h3, h4⟩ := wait_signaled s hs1 hs2
  have hx : WIFEXITED e.status = false ∧ WIFSIGNALED e.status = true := by
    cases core <;> simp [hstatus, h1, h2, h3, h4]
  rw [main_waited e argv hv hmalloc hclone hwait]
  refine ⟨hx.1, hx.2, ?_, ?_, ?_⟩
  · simp [main_report, hx.1, hx.2]
  · simp [exit_status, main_report, hx.1, hx.2, EXIT_FAILURE]
  · intro hne
    simp only [main_report, hx.1, hx.2, EXIT_FAILURE]
    simp
    omega

theorem main_signal_gives_generic_failure_witness :
    (main ⟨0, 0, 0o040755, true, 4242, ⟨0, true, true⟩, 4242, 11 + 0x80, 0⟩
      ["./container", "/srv/rootfs", "/bin/sh"]).ctl = .ret 1 :=
  (main_signal_gives_generic_failure
    ⟨0, 0, 0o040755, true, 4242, ⟨0, true, true⟩, 4242, 11 + 0x80, 0⟩
    ["./container", "/srv/rootfs", "/bin/sh"] 11 true (by decide) rfl (by decide) (by decide)
    (by decide) (by decide) rfl).2.2.1

/-- C3: when a validation check of `main` fails (fewer than two positional
arguments, or effective uid not 0, or `stat` of the rootfs path fails, or the
mode is not that of a directory), the exit status is 1 and the run contains
no `clone` and no `mkdir`, hence no child and no cgroup directory.  Any two
such runs, in particular the one for a nonexistent path and the one for a
regular file, so end with the same exit status and without a child. -/
theorem main_validation_failure (e e2 : MainEnv) (argv argv2 : List String)
    (h : argv.length < 3 ∨ e.geteuid ≠ 0 ∨ e.stat = -1 ∨ S_ISDIR e.st_mode = false)
    (h2 : argv2.length < 3 ∨ e2.geteuid ≠ 0 ∨ e2.stat = -1 ∨ S_ISDIR e2.st_mode = false) :
    exit_status (main e argv) = some 1 ∧
    (∀ c ∈ (main e argv).trace, c.is_clone = false ∧ c.is_mkdir = false) ∧
    exit_status (main e2 argv2) = exit_status (main e argv) ∧
    (∀ c ∈ (main e2 argv2).trace, c.is_clone = false ∧ c.is_mkdir = false) := by
  have key : ∀ (e : MainEnv) (argv : List String),
      (argv.length < 3 ∨ e.geteuid ≠ 0 ∨ e.stat = -1 ∨ S_ISDIR e.st_mode = false) →
      exit_status (main e argv) = some 1 ∧
      (∀ c ∈ (main e argv).trace, c.is_clone = false ∧ c.is_mkdir = false) := by
    intro e argv h
    by_cases h1 : argv.length < 3
    · simp [main, bind, Proc.bind, sys, die, emit, pure, Proc.pure, h1, EXIT_FAILURE,
        exit_status, Call.is_clone, Call.is_mkdir]
    by_cases hu : e.geteuid = 0
    · by_cases h3 : e.stat = -1
      · simp [main, bind, Proc.bind, sys, die, emit, pure, Proc.pure, h1, hu, h3, EXIT_FAILURE,
          exit_status, Call.is_clone, Call.is_mkdir]
      · have h4 : S_ISDIR e.st_mode = false := by
          rcases h with h | h | h | h
          · exact absurd h h1
          · exact absurd hu h
          · exact absurd h h3
          · exact h
        simp [main, bind, Proc.bind, sys, die, emit, pure, Proc.pure, h1, hu, h3, h4,
          EXIT_FAILURE, exit_status, Call.is_clone, Call.is_mkdir]
    · simp [main, bind, Proc.bind, sys, die, emit, pure, Proc.pure, h1, hu, EXIT_FAILURE,
        exit_status, Call.is_clone, Call.is_mkdir]
  obtain ⟨a1, a2⟩ := key e argv h
  obtain ⟨b1, b2⟩ := key e2 argv2 h2
  exact ⟨a1, a2, b1.trans a1.symm, b2⟩

/-- The run for a nonexistent rootfs path (`stat` fails) and the run for a
regular file (mode 0100644) both end with exit status 1. -/
theorem main_validation_failure_witness :
    exit_status (main ⟨0, -1, 0, true, 4242, ⟨0, true, true⟩, 4242, 0, 0⟩
      ["./container", "/nonexistent", "/bin/sh"]) = some 1 ∧
    exit_status (main ⟨0, 0, 0o100644, true, 4242, ⟨0, true, true⟩, 4242, 0, 0⟩
      ["./container", "/etc/passwd", "/bin/sh"]) = some 1 :=
  have h := main_validation_failure ⟨0, -1, 0, true, 4242, ⟨0, true, true⟩, 4242, 0, 0⟩
    ⟨0, 0, 0o100644, true, 4242, ⟨0, true, true⟩, 4242, 0, 0⟩
    ["./container", "/nonexistent", "/bin/sh"] ["./container", "/etc/passwd", "/bin/sh"]
    (Or.inr (Or.inr (Or.inl rfl))) (Or.inr (Or.inr (Or.inr (by decide))))
  ⟨h.1, h.2.2.1.trans h.1⟩

/-- C4 (as stated, refuted): two runs that pass validation and end without any
`rmdir`.  In the first `waitpid` fails after `setup_cgroups` has created the
group directory; in the second `clone` fails. -/
theorem cleanup_skipped_when_main_dies :
    (validation_passes ⟨0, 0, 0o040755, true, 4242, ⟨0, true, true⟩, -1, 0, 0⟩
        ["./container", "/srv/rootfs", "/bin/sh"] ∧
      (main ⟨0, 0, 0o040755, true, 4242, ⟨0, true, true⟩, -1, 0, 0⟩
        ["./container", "/srv/rootfs", "/bin/sh"]).ctl = .exited 1 ∧
      Call.mkdir "/sys/fs/cgroup/memory/baby-docker-4242" 0o755 ∈
        (main ⟨0, 0, 0o040755, true, 4242, ⟨0, true, true⟩, -1, 0, 0⟩
          ["./container", "/srv/rootfs", "/bin/sh"]).trace ∧
      (main ⟨0, 0, 0o040755, true, 4242, ⟨0, true, true⟩, -1, 0, 0⟩
        ["./container", "/srv/rootfs", "/bin/sh"]).trace.filter Call.is_rmdir = []) ∧
    (validation_passes ⟨0, 0, 0o040755, true, -1, ⟨0, true, true⟩, 0, 0, 0⟩
        ["./container", "/srv/rootfs", "/bin/sh"] ∧
      (main ⟨0, 0, 0o040755, true, -1, ⟨0, true, true⟩, 0, 0, 0⟩
        ["./container", "/srv/rootfs", "/bin/sh"]).ctl = .exited 1 ∧
      (main ⟨0, 0, 0o040755, true, -1, ⟨0, true, true⟩, 0, 0, 0⟩
        ["./container", "/srv/rootfs", "/bin/sh"]).trace.filter Call.is_rmdir = []) := by
  decide

/-- C4 (amended): on a run of `main` that passes validation and gets its
stack, (1) when `clone` and `waitpid` succeed, whatever the wait status, the
calls of `setup_cgroups` are followed by `waitpid` and then by the calls of
`cleanup_cgroups`, a single `rmdir` of the group directory, after which `main`
returns; (2) when `clone` fails, `main` ends through `die` with status 1
without any `mkdir` or `rmdir`: no group directory was created. -/
theorem main_cleanup_after_wait (e : MainEnv) (argv : List String)
    (hv : validation_passes e argv) (hmalloc : e.malloc = true) :
    (e.clone ≠ -1 → e.waitpid ≠ -1 →
      ∃ (pre post : List Call) (code : Int),
        (main e argv).trace = pre ++ (setup_cgroups e.cgroup e.clone).trace
          ++ [.waitpid e.clone 0] ++ (cleanup_cgroups e.rmdir_cgroup e.clone).trace ++ post ∧
        (cleanup_cgroups e.rmdir_cgroup e.clone).trace =
          [.rmdir (snprintf PATH_MAX ("/sys/fs/cgroup/memory/baby-docker-" ++ fmt_d e.clone))] ∧
        (main e argv).ctl = .ret code) ∧
    (e.clone = -1 →
      (main e argv).ctl = .exited 1 ∧
      ∀ c ∈ (main e argv).trace, c.is_mkdir = false ∧ c.is_rmdir = false) := by
  constructor
  · intro hclone hwait
    rw [main_waited e argv hv hmalloc hclone hwait]
    refine ⟨main_prologue argv ++ [.printf ("Container started with PID: " ++ fmt_d e.clone ++ "\n")],
      .free :: (main_report e.status).trace, ?_⟩
    have hc : ∃ code, (main_report e.status).ctl = .ret code := by
      simp only [main_report]
      split_ifs <;> exact ⟨_, rfl⟩
    obtain ⟨code, hcode⟩ := hc
    refine ⟨code, ?_, ?_, hcode⟩
    · simp [cleanup_cgroups_trace]
    · simp [cleanup_cgroups_trace, cgroup_name]
  · intro hclone
    rw [main_clone_fails e argv hv hmalloc hclone]
    simp [main_prologue, Call.is_mkdir, Call.is_rmdir]

theorem main_cleanup_after_wait_witness :
    ∃ (pre post : List Call) (code : Int),
      (main ⟨0, 0, 0o040755, true, 4242, ⟨0, true, true⟩, 4242, 9, 0⟩
        ["./container", "/srv/rootfs", "/bin/sh"]).trace =
        pre ++ (setup_cgroups ⟨0, true, true⟩ 4242).trace ++ [.waitpid 4242 0]
          ++ (cleanup_cgroups 0 4242).trace ++ post ∧
      (cleanup_cgroups 0 4242).trace =
        [.rmdir (snprintf PATH_MAX ("/sys/fs/cgroup/memory/baby-docker-" ++ fmt_d 4242))] ∧
      (main ⟨0, 0, 0o040755, true, 4242, ⟨0, true, true⟩, 4242, 9, 0⟩
        ["./container", "/srv/rootfs", "/bin/sh"]).ctl = .ret code :=
  (main_cleanup_after_wait ⟨0, 0, 0o040755, true, 4242, ⟨0, true, true⟩, 4242, 9, 0⟩
    ["./container", "/srv/rootfs", "/bin/sh"] (by decide) rfl).1 (by decide) (by decide)

/-- C5: in `child_func`, when `execvp` returns -1 the child ends through `die`
with status EXIT_FAILURE, which is 1 and not 0, whatever the results of the
hostname and mount steps; it does not return 0.  When those steps let the
child reach the `execvp` call (`setup_mounts` returned), the run ends with
that call followed by the `perror` of `die`. -/
theorem child_func_exec_failure (e : ChildEnv) (config : container_config_t)
    (h : e.execvp = some (-1)) :
    (child_func e config).ctl = .exited EXIT_FAILURE ∧ EXIT_FAILURE = 1 ∧
    (child_func e config).ctl ≠ .ret 0 ∧
    ((setup_mounts e.mounts config.rootfs_path).ctl = .ret 0 →
      (child_func e config).trace =
        (setup_hostname e.sethostname).trace ++ (setup_mounts e.mounts config.rootfs_path).trace
          ++ [.execvp config.argv.head? config.argv, .perror "Failed to exec"]) := by
  have hctl : (child_func e config).ctl = .exited EXIT_FAILURE := by
    rcases setup_mounts_ctl e.mounts config.rootfs_path with hm | hm <;>
    simp [child_func, bind, Proc.bind, setup_hostname_ctl, hm, h, execvp, die, EXIT_FAILURE]
  refine ⟨hctl, rfl, ?_, ?_⟩
  · rw [hctl]
    simp
  · intro hm
    simp [child_func, bind, Proc.bind, setup_hostname_ctl, hm, h, execvp, die]

theorem child_func_exec_failure_witness :
    (child_func ⟨0, ⟨0, 0, 0, 0, 0, 0, 0, 0, 0⟩, some (-1)⟩ ⟨"/srv/rootfs", ["/bin/nosuch"]⟩).ctl
      = .exited 1 :=
  (child_func_exec_failure ⟨0, ⟨0, 0, 0, 0, 0, 0, 0, 0, 0⟩, some (-1)⟩
    ⟨"/srv/rootfs", ["/bin/nosuch"]⟩ rfl).1

/-- C6 (as stated, refuted): for the rootfs path `/srv////...` of 4086 bytes
and every step succeeding, `setup_mounts` returns 0 but the calls it issued
are not the nine listed: the path given to `mkdir` is cut to the 4095 bytes
that fit the PATH_MAX buffer and ends in `/.old_roo`. -/
theorem setup_mounts_long_rootfs_truncated :
    long_rootfs.length = 4086 ∧
    (setup_mounts ⟨0, 0, 0, 0, 0, 0, 0, 0, 0⟩ long_rootfs).ctl = .ret 0 ∧
    (setup_mounts ⟨0, 0, 0, 0, 0, 0, 0, 0, 0⟩ long_rootfs).trace ≠ switch_steps long_rootfs ∧
    Call.mkdir (long_rootfs ++ "/.old_roo") 0o755 ∈
      (setup_mounts ⟨0, 0, 0, 0, 0, 0, 0, 0, 0⟩ long_rootfs).trace := by
  have hlen : long_rootfs.length = 4086 := by
    show ('/' :: 's' :: 'r' :: 'v' :: List.replicate 4082 '/').length = 4086
    simp only [List.length_cons, List.length_replicate]
  have hcut : snprintf PATH_MAX (long_rootfs ++ "/.old_root") = long_rootfs ++ "/.old_roo" := by
    rw [snprintf_append _ _ _ (by rw [hlen]; decide), hlen]
    congr 1
  rw [setup_mounts_survives _ _ (by decide) (by decide) (by decide) (by decide) (by decide)
    (by decide), hcut]
  refine ⟨hlen, rfl, ?_, ?_⟩
  · intro hEq
    simp [switch_steps] at hEq
    have := string_append_left_cancel _ _ _ hEq
    revert this
    decide
  · simp

/-- C6 (amended): for every rootfs path of at most 4085 bytes, so that
`<rootfs>/.old_root` fits the PATH_MAX buffer, when every step succeeds
`setup_mounts` issues exactly the nine steps of the specification, in that
order, and returns 0: the private marking comes first and the bind mount
before the pivot. -/
theorem setup_mounts_nine_steps (e : MountEnv) (rootfs : String)
    (hlen : rootfs.length + 10 < PATH_MAX)
    (h1 : e.mount_private = 0) (_h2 : e.mkdir_old_root = 0) (h3 : e.mount_bind = 0)
    (h4 : e.chdir_rootfs = 0) (h5 : e.pivot_root = 0) (h6 : e.chdir_slash = 0)
    (h7 : e.umount2 = 0) (h8 : e.rmdir_old_root = 0) (h9 : e.mount_proc = 0) :
    setup_mounts e rootfs =
      ⟨[.mount none "/" none (MS_REC ||| MS_PRIVATE),
        .mkdir (rootfs ++ "/.old_root") 0o755,
        .mount (some rootfs) rootfs none (MS_BIND ||| MS_REC),
        .chdir rootfs,
        .pivot_root "." ".old_root",
        .chdir "/",
        .umount2 "/.old_root" MNT_DETACH,
        .rmdir "/.old_root",
        .mount (some "proc") "/proc" (some "proc") 0], .ret 0⟩ ∧
    (setup_mounts e rootfs).trace = switch_steps rootfs := by
  have hfit : snprintf PATH_MAX (rootfs ++ "/.old_root") = rootfs ++ "/.old_root" := by
    apply snprintf_fits
    have : (rootfs ++ "/.old_root").length = rootfs.length + 10 := by
      rw [String.length_append]; rfl
    omega
  rw [setup_mounts_survives e rootfs (by omega) (by omega) (by omega) (by omega) (by omega)
    (by omega), hfit]
  simp [h8, h9, switch_steps]

theorem setup_mounts_nine_steps_witness :
    (setup_mounts ⟨0, 0, 0, 0, 0, 0, 0, 0, 0⟩ "/srv/rootfs").trace = switch_steps "/srv/rootfs" :=
  (setup_mounts_nine_steps ⟨0, 0, 0, 0, 0, 0, 0, 0, 0⟩ "/srv/rootfs" (by decide)
    rfl rfl rfl rfl rfl rfl rfl rfl rfl).2

/-- C7: in `setup_mounts`, a failure of step 1 (make / private), step 3 (bind
mount), step 5 (`pivot_root`) or step 6 (`chdir` to /) ends the process at once
through `die`, with status 1 and no later step issued; when the six checked
steps up to the unmount succeed, a failure of step 8 (`rmdir` of /.old_root) or
of step 9 (mount of /proc) only adds a warning: all nine steps are issued and
`setup_mounts` returns 0. -/
theorem setup_mounts_fatal_and_advisory (e : MountEnv) (rootfs : String) :
    (e.mount_private = -1 →
      setup_mounts e rootfs =
        ⟨[.mount none "/" none (MS_REC ||| MS_PRIVATE), .perror "Failed to make / private"],
         .exited 1⟩) ∧
    (e.mount_private ≠ -1 → e.mount_bind = -1 →
      setup_mounts e rootfs =
        ⟨[.mount none "/" none (MS_REC ||| MS_PRIVATE),
          .mkdir (snprintf PATH_MAX (rootfs ++ "/.old_root")) 0o755,
          .mount (some rootfs) rootfs none (MS_BIND ||| MS_REC),
          .perror "Failed to bind mount new root"], .exited 1⟩) ∧
    (e.mount_private ≠ -1 → e.mount_bind ≠ -1 → e.chdir_rootfs ≠ -1 → e.pivot_root = -1 →
      setup_mounts e rootfs =
        ⟨[.mount none "/" none (MS_REC ||| MS_PRIVATE),
          .mkdir (snprintf PATH_MAX (rootfs ++ "/.old_root")) 0o755,
          .mount (some rootfs) rootfs none (MS_BIND ||| MS_REC),
          .chdir rootfs,
          .pivot_root "." ".old_root",
          .perror "Failed to pivot_root"], .exited 1⟩) ∧
    (e.mount_private ≠ -1 → e.mount_bind ≠ -1 → e.chdir_rootfs ≠ -1 → e.pivot_root ≠ -1 →
      e.chdir_slash = -1 →
      setup_mounts e rootfs =
        ⟨[.mount none "/" none (MS_REC ||| MS_PRIVATE),
          .mkdir (snprintf PATH_MAX (rootfs ++ "/.old_root")) 0o755,
          .mount (some rootfs) rootfs none (MS_BIND ||| MS_REC),
          .chdir rootfs,
          .pivot_root "." ".old_root",
          .chdir "/",
          .perror "Failed to chdir to /"], .exited 1⟩) ∧
    (e.mount_private ≠ -1 → e.mount_bind ≠ -1 → e.chdir_rootfs ≠ -1 → e.pivot_root ≠ -1 →
      e.chdir_slash ≠ -1 → e.umount2 ≠ -1 →
      (setup_mounts e rootfs).ctl = .ret 0 ∧
      (setup_mounts e rootfs).trace =
        [.mount none "/" none (MS_REC ||| MS_PRIVATE),
         .mkdir (snprintf PATH_MAX (rootfs ++ "/.old_root")) 0o755,
         .mount (some rootfs) rootfs none (MS_BIND ||| MS_REC),
         .chdir rootfs,
         .pivot_root "." ".old_root",
         .chdir "/",
         .umount2 "/.old_root" MNT_DETACH,
         .rmdir "/.old_root"]
         ++ (if e.rmdir_old_root = -1 then [.perror "Warning: Failed to remove .old_root"]
             else [])
         ++ [.mount (some "proc") "/proc" (some "proc") 0]
         ++ (if e.mount_proc = -1 then [.perror "Warning: Failed to mount /proc"] else [])) := by
  refine ⟨?_, ?_, ?_, ?_, ?_⟩
  · intro h1
    simp [setup_mounts, bind, Proc.bind, sys, die, EXIT_FAILURE, h1]
  · intro h1 h3
    simp [setup_mounts, bind, Proc.bind, sys, die, pure, Proc.pure, EXIT_FAILURE, h1, h3]
  · intro h1 h3 h4 h5
    simp [setup_mounts, bind, Proc.bind, sys, die, pure, Proc.pure, EXIT_FAILURE, h1, h3, h4, h5]
  · intro h1 h3 h4 h5 h6
    simp [setup_mounts, bind, Proc.bind, sys, die, pure, Proc.pure, EXIT_FAILURE, h1, h3, h4, h5,
      h6]
  · intro h1 h3 h4 h5 h6 h7
    rw [setup_mounts_survives e rootfs h1 h3 h4 h5 h6 h7]
    exact ⟨rfl, rfl⟩

/-- With `pivot_root` failing the run stops there with status 1; with `rmdir`
and the mount of /proc failing the run goes on to return 0. -/
theorem setup_mounts_fatal_and_advisory_witness :
    setup_mounts ⟨0, 0, 0, 0, -1, 0, 0, 0, 0⟩ "/srv/rootfs" =
      ⟨[.mount none "/" none (MS_REC ||| MS_PRIVATE),
        .mkdir (snprintf PATH_MAX ("/srv/rootfs" ++ "/.old_root")) 0o755,
        .mount (some "/srv/rootfs") "/srv/rootfs" none (MS_BIND ||| MS_REC),
        .chdir "/srv/rootfs",
        .pivot_root "." ".old_root",
        .perror "Failed to pivot_root"], .exited 1⟩ ∧
    (setup_mounts ⟨0, 0, 0, 0, 0, 0, 0, -1, -1⟩ "/srv/rootfs").ctl = .ret 0 :=
  ⟨(setup_mounts_fatal_and_advisory ⟨0, 0, 0, 0, -1, 0, 0, 0, 0⟩ "/srv/rootfs").2.2.1
      (by decide) (by decide) (by decide) rfl,
   ((setup_mounts_fatal_and_advisory ⟨0, 0, 0, 0, 0, 0, 0, -1, -1⟩ "/srv/rootfs").2.2.2.2
      (by decide) (by decide) (by decide) (by decide) (by decide) (by decide)).1⟩

/-- C8: resource limiting is best-effort.  For every pid and all results of
the cgroup calls (`mkdir`, the two `fopen`, `rmdir`): `setup_cgroups` returns
0; `cleanup_cgroups` returns, also when run a second time with any result of
its `rmdir`; the way `main` ends is the same as in the run whose cgroup
calls all succeed; a run of `main` that passes validation, gets its stack
and whose `clone` succeeds calls `waitpid` on the child; and among runs in
which the child is reaped the way `main` ends depends on the wait status
only. -/
theorem cgroup_failures_are_not_fatal (e : MainEnv) (argv : List String) (cg : CgroupEnv)
    (r r2 pid : Int) :
    (setup_cgroups cg pid).ctl = .ret 0 ∧
    (cleanup_cgroups r pid).ctl = .ret () ∧
    (cleanup_cgroups r pid >>= fun _ => cleanup_cgroups r2 pid).ctl = .ret () ∧
    (main (e.with_cgroup_results cg r) argv).ctl =
      (main (e.with_cgroup_results ⟨0, true, true⟩ 0) argv).ctl ∧
    (validation_passes e argv → e.malloc = true → e.clone ≠ -1 →
      Call.waitpid e.clone 0 ∈ (main (e.with_cgroup_results cg r) argv).trace) ∧
    (validation_passes e argv → e.malloc = true → e.clone ≠ -1 → e.waitpid ≠ -1 →
      ∀ (e2 : MainEnv) (argv2 : List String), validation_passes e2 argv2 → e2.malloc = true →
        e2.clone ≠ -1 → e2.waitpid ≠ -1 → e2.status = e.status →
        (main e2 argv2).ctl = (main (e.with_cgroup_results cg r) argv).ctl) := by
  refine ⟨setup_cgroups_ctl cg pid, cleanup_cgroups_ctl r pid, ?_, ?_, ?_, ?_⟩
  · simp [bind, Proc.bind, cleanup_cgroups_ctl]
  · rw [main_ctl_cgroup_irrelevant, main_ctl_cgroup_irrelevant]
  · intro hv hmalloc hclone
    have hv2 : validation_passes (e.with_cgroup_results cg r) argv := hv
    by_cases hwait : e.waitpid = -1
    · rw [main_wait_fails _ argv hv2 hmalloc hclone hwait]
      simp [MainEnv.with_cgroup_results]
    · rw [main_waited _ argv hv2 hmalloc hclone hwait]
      simp [MainEnv.with_cgroup_results]
  · intro hv hmalloc hclone hwait e2 argv2 hv2 hmalloc2 hclone2 hwait2 hst
    rw [main_ctl_cgroup_irrelevant, main_waited e argv hv hmalloc hclone hwait,
      main_waited e2 argv2 hv2 hmalloc2 hclone2 hwait2, hst]

theorem cgroup_failures_are_not_fatal_witness :
    Call.waitpid 4242 0 ∈
      (main (MainEnv.with_cgroup_results
        ⟨0, 0, 0o040755, true, 4242, ⟨0, true, true⟩, 4242, 3 * 256, 0⟩ ⟨-1, false, false⟩ (-1))
        ["./container", "/srv/rootfs", "/bin/sh"]).trace :=
  (cgroup_failures_are_not_fatal ⟨0, 0, 0o040755, true, 4242, ⟨0, true, true⟩, 4242, 3 * 256, 0⟩
    ["./container", "/srv/rootfs", "/bin/sh"] ⟨-1, false, false⟩ (-1) (-1) 4242).2.2.2.2.1
    (by decide) rfl (by decide)

/-- C9: for pids `pid` and `pid2` of type `pid_t` (32-bit), the only directory
`setup_cgroups pid` creates and the directory `cleanup_cgroups pid` removes are
the same path, `/sys/fs/cgroup/memory/baby-docker-` followed by the decimal
`pid`, not cut by the PATH_MAX buffer; when the directory is created, the two
files opened are `memory.limit_in_bytes` and `tasks` directly under it; and
for `pid2` different from `pid` the group paths, created and removed, are
different. -/
theorem cgroup_path_keyed_by_pid (pid pid2 : Int) (cg : CgroupEnv) (r : Int)
    (h1 : -2 ^ 31 ≤ pid) (h2 : pid < 2 ^ 31) (h3 : -2 ^ 31 ≤ pid2) (h4 : pid2 < 2 ^ 31) :
    (setup_cgroups cg pid).trace.filter Call.is_mkdir =
      [.mkdir ("/sys/fs/cgroup/memory/baby-docker-" ++ fmt_d pid) 0o755] ∧
    (cleanup_cgroups r pid).trace =
      [.rmdir ("/sys/fs/cgroup/memory/baby-docker-" ++ fmt_d pid)] ∧
    (cg.mkdir = 0 →
      (setup_cgroups cg pid).trace.filter Call.is_fopen =
        [.fopen ("/sys/fs/cgroup/memory/baby-docker-" ++ fmt_d pid ++ "/memory.limit_in_bytes")
           "w",
         .fopen ("/sys/fs/cgroup/memory/baby-docker-" ++ fmt_d pid ++ "/tasks") "w"]) ∧
    (pid2 ≠ pid →
      "/sys/fs/cgroup/memory/baby-docker-" ++ fmt_d pid2 ≠
        "/sys/fs/cgroup/memory/baby-docker-" ++ fmt_d pid ∧
      (setup_cgroups cg pid2).trace.filter Call.is_mkdir ≠
        (setup_cgroups cg pid).trace.filter Call.is_mkdir ∧
      (cleanup_cgroups r pid2).trace ≠ (cleanup_cgroups r pid).trace) := by
  have hdir := cgroup_name_fits_bare pid h1 h2
  have hdir2 := cgroup_name_fits_bare pid2 h3 h4
  have hlim := cgroup_name_fits pid h1 h2 "/memory.limit_in_bytes" (by decide)
  have htasks := cgroup_name_fits pid h1 h2 "/tasks" (by decide)
  have hmk : ∀ p : Int, snprintf PATH_MAX (cgroup_name p) = cgroup_name p →
      (setup_cgroups cg p).trace.filter Call.is_mkdir = [.mkdir (cgroup_name p) 0o755] := by
    intro p hp
    simp only [setup_cgroups, bind, Proc.bind, sys, emit, pure, Proc.pure]
    rw [show "/sys/fs/cgroup/memory/baby-docker-" ++ fmt_d p = cgroup_name p from rfl, hp]
    split_ifs <;> simp [Call.is_mkdir]
  have hne : pid2 ≠ pid → cgroup_name pid2 ≠ cgroup_name pid :=
    fun h hEq => h (cgroup_name_injective _ _ hEq)
  refine ⟨hmk pid hdir, ?_, ?_, ?_⟩
  · rw [cleanup_cgroups_trace, hdir]
    rfl
  · intro hz
    simp only [setup_cgroups, bind, Proc.bind, sys, emit, pure, Proc.pure]
    rw [show "/sys/fs/cgroup/memory/baby-docker-" ++ fmt_d pid = cgroup_name pid from rfl, hdir,
      hlim, htasks]
    simp only [hz]
    split_ifs <;> simp [Call.is_fopen, cgroup_name]
  · intro h
    refine ⟨hne h, ?_, ?_⟩
    · rw [hmk pid hdir, hmk pid2 hdir2]
      intro hEq
      simp only [List.cons.injEq, Call.mkdir.injEq, and_true] at hEq
      exact hne h hEq
    · rw [cleanup_cgroups_trace, cleanup_cgroups_trace, hdir, hdir2]
      intro hEq
      simp only [List.cons.injEq, Call.rmdir.injEq, and_true] at hEq
      exact hne h hEq

theorem cgroup_path_keyed_by_pid_witness :
    (setup_cgroups ⟨0, true, true⟩ 4242).trace.filter Call.is_mkdir =
      [.mkdir "/sys/fs/cgroup/memory/baby-docker-4242" 0o755] ∧
    (cleanup_cgroups 0 4242).trace = [.rmdir "/sys/fs/cgroup/memory/baby-docker-4242"] :=
  have h := cgroup_path_keyed_by_pid 4242 4243 ⟨0, true, true⟩ 0 (by decide) (by decide)
    (by decide) (by decide)
  ⟨h.1, h.2.1⟩

/-- C10: every run of `main` that passes validation and gets its stack
contains exactly one `clone` call, whether that call succeeds or not and
however the run goes on.  Its flag word has the bits CLONE_NEWPID,
CLONE_NEWNS, CLONE_NEWNET, CLONE_NEWUTS and CLONE_NEWIPC set, carries SIGCHLD
as termination signal, and has no other bit: it is the sum of these six, and
in particular CLONE_NEWUSER is not set. -/
theorem main_clones_once_with_five_namespaces (e : MainEnv) (argv : List String)
    (hv : validation_passes e argv) (hmalloc : e.malloc = true) :
    (main e argv).trace.filter Call.is_clone =
      [.clone clone_flags ⟨argv_s argv 1, argv.drop 2⟩] ∧
    clone_flags &&& CLONE_NEWPID = CLONE_NEWPID ∧
    clone_flags &&& CLONE_NEWNS = CLONE_NEWNS ∧
    clone_flags &&& CLONE_NEWNET = CLONE_NEWNET ∧
    clone_flags &&& CLONE_NEWUTS = CLONE_NEWUTS ∧
    clone_flags &&& CLONE_NEWIPC = CLONE_NEWIPC ∧
    clone_flags &&& CSIGNAL = SIGCHLD ∧
    clone_flags =
      CLONE_NEWPID + CLONE_NEWNS + CLONE_NEWNET + CLONE_NEWUTS + CLONE_NEWIPC + SIGCHLD ∧
    clone_flags &&& CLONE_NEWUSER = 0 := by
  refine ⟨?_, by decide, by decide, by decide, by decide, by decide, by decide, by decide,
    by decide⟩
  by_cases hclone : e.clone = -1
  · rw [main_clone_fails e argv hv hmalloc hclone]
    simp [main_prologue, Call.is_clone]
  by_cases hwait : e.waitpid = -1
  · rw [main_wait_fails e argv hv hmalloc hclone hwait]
    simp [main_prologue, Call.is_clone, setup_cgroups_no_clone]
  · rw [main_waited e argv hv hmalloc hclone hwait]
    simp [main_prologue, Call.is_clone, setup_cgroups_no_clone, main_report_no_clone]

theorem main_clones_once_with_five_namespaces_witness :
    (main ⟨0, 0, 0o040755, true, 4242, ⟨0, true, true⟩, 4242, 0, 0⟩
      ["./container", "/srv/rootfs", "/bin/sh", "-l"]).trace.filter Call.is_clone =
      [.clone 0x6C020011 ⟨"/srv/rootfs", ["/bin/sh", "-l"]⟩] :=
  (main_clones_once_with_five_namespaces ⟨0, 0, 0o040755, true, 4242, ⟨0, true, true⟩, 4242, 0, 0⟩
    ["./container", "/srv/rootfs", "/bin/sh", "-l"] (by decide) rfl).1

end Container
